import Mathlib

/-!
Shallow embedding of `src/demo.py` (repository brother519/onecar).

The script defines a function `hello_world` that prints a greeting and
returns the string "success", a class `Calculator` holding a single
attribute `value` (initialized to 0) with methods `add` and `multiply`
that update `value` in place and return the new value, and a main block
that builds a `Calculator`, runs `add(5)` then `multiply(2)`, and prints
the final value.

The numeric state is modelled with `Int` (Python integers are exact and
unbounded).  Standard output is modelled as the list of lines written so
far; each list element stands for one newline-terminated line.  For the
dynamic-typing behaviour of `add`/`multiply` on non-numeric arguments we
model Python values restricted to integers and strings (`PyVal`) together
with Python's `+` and `*` semantics on them, with `Except String`
carrying an uncaught `TypeError`.
-/

/-- The text printed by `hello_world` (one line of standard output). -/
def helloLine : String := "Hello World!"

/-- The string returned by `hello_world`. -/
def successMsg : String := "success"

/-- The literal prefix of the final line printed by the main block. -/
def resultPrefix : String := "Result: "

/-- The error condition raised by Python on a type mismatch. -/
def typeErrorMsg : String := "TypeError"

/-- Embeds `hello_world` of src/demo.py: given the lines already written
to standard output, it appends the greeting line and returns "success". -/
def hello_world (out : List String) : List String × String :=
  (out ++ [helloLine], successMsg)

/-- Embeds the `Calculator` class of src/demo.py.  Its `__init__` stores a
single attribute `value`; no other attribute is ever assigned. -/
structure Calculator where
  value : Int
deriving DecidableEq

/-- Embeds `Calculator.__init__`: `self.value = 0`. -/
def Calculator.init : Calculator := ⟨0⟩

/-- Embeds `Calculator.add`: `self.value += num; return self.value`. -/
def Calculator.add (c : Calculator) (num : Int) : Calculator × Int :=
  let v := c.value + num
  (⟨v⟩, v)

/-- Embeds `Calculator.multiply`: `self.value *= num; return self.value`. -/
def Calculator.multiply (c : Calculator) (num : Int) : Calculator × Int :=
  let v := c.value * num
  (⟨v⟩, v)

/-- An operation invoked on a `Calculator`: `add n` or `multiply n`. -/
inductive Op where
  | add (n : Int)
  | mul (n : Int)
deriving DecidableEq

/-- Runs one operation on a calculator, keeping the updated state. -/
def applyOp (c : Calculator) : Op → Calculator
  | .add n => (c.add n).1
  | .mul n => (c.multiply n).1

/-- Runs a sequence of operations left to right on a calculator. -/
def runOps (c : Calculator) (ops : List Op) : Calculator :=
  ops.foldl applyOp c

/-- One step of the fold the specification describes: apply `+` or `*`
to the running value. -/
def foldOp (v : Int) : Op → Int
  | .add n => v + n
  | .mul n => v * n

/-- The left-to-right fold of `+`/`*` over an argument sequence starting
from 0, as the specification words it. -/
def specFold (ops : List Op) : Int :=
  ops.foldl foldOp 0

/-- Embeds the `__main__` block of src/demo.py, recording every observable
of the run: the final calculator state, the value returned by `add(5)`,
the value returned by `multiply(2)`, the lines written to standard output
(starting from an empty output), and the process exit status.  The block
is straight-line code that raises no exception, so CPython terminates
with status 0. -/
def main_trace : Calculator × Int × Int × List String × Nat :=
  let calc0 := Calculator.init
  let p1 := calc0.add 5
  let p2 := p1.1.multiply 2
  (p2.1, p1.2, p2.2, [resultPrefix ++ toString p2.1.value], 0)

/-- A Python value, restricted to the integer and string cases needed to
settle the dynamic-typing behaviour of `add`/`multiply`. -/
inductive PyVal where
  | intV (n : Int)
  | strV (s : String)
deriving DecidableEq

/-- Python string repetition `n * s`: `s` concatenated `n` times, the
empty string when `n ≤ 0`. -/
def strRepeat (n : Int) (s : String) : String :=
  String.join (List.replicate n.toNat s)

/-- Python `+` on integer and string operands: integer addition, string
concatenation, and a `TypeError` on mixed operands. -/
def pyAdd : PyVal → PyVal → Except String PyVal
  | .intV a, .intV b => .ok (.intV (a + b))
  | .strV a, .strV b => .ok (.strV (a ++ b))
  | _, _ => .error typeErrorMsg

/-- Python `*` on integer and string operands: integer multiplication,
sequence repetition when one operand is a string and the other an
integer, and a `TypeError` on two strings. -/
def pyMul : PyVal → PyVal → Except String PyVal
  | .intV a, .intV b => .ok (.intV (a * b))
  | .intV a, .strV s => .ok (.strV (strRepeat a s))
  | .strV s, .intV a => .ok (.strV (strRepeat a s))
  | .strV _, .strV _ => .error typeErrorMsg

/-- The `Calculator` state under the dynamic-typing model: `value` holds
whatever Python value the last operation produced. -/
structure DynCalculator where
  value : PyVal
deriving DecidableEq

/-- Embeds `Calculator.__init__` under the dynamic-typing model. -/
def DynCalculator.init : DynCalculator := ⟨.intV 0⟩

/-- Embeds `Calculator.add` under the dynamic-typing model: evaluate
`self.value + num`; an exception propagates uncaught (the script installs
no handler), otherwise the result is stored and returned. -/
def DynCalculator.add (c : DynCalculator) (num : PyVal) :
    Except String (DynCalculator × PyVal) :=
  match pyAdd c.value num with
  | .ok v => .ok (⟨v⟩, v)
  | .error e => .error e

/-- Embeds `Calculator.multiply` under the dynamic-typing model. -/
def DynCalculator.multiply (c : DynCalculator) (num : PyVal) :
    Except String (DynCalculator × PyVal) :=
  match pyMul c.value num with
  | .ok v => .ok (⟨v⟩, v)
  | .error e => .error e

/-- The whole mutable state of a run, used to state frame conditions:
the calculator, the standard-output lines, and all remaining
global/external state, kept abstract as `G`. -/
structure ProgState (G : Type) where
  acc : Calculator
  stdout : List String
  globals : G

/-- Embeds a call `self.add(num)` at the level of the whole program
state.  The method body `self.value += num; return self.value` mentions
only `self.value` and `num`, so the translation threads the rest of the
state through unchanged. -/
def ProgState.runAdd {G : Type} (s : ProgState G) (num : Int) :
    ProgState G × Int :=
  let p := s.acc.add num
  (ProgState.mk p.1 s.stdout s.globals, p.2)

/-- Embeds a call `self.multiply(num)` at the level of the whole program
state. -/
def ProgState.runMultiply {G : Type} (s : ProgState G) (num : Int) :
    ProgState G × Int :=
  let p := s.acc.multiply num
  (ProgState.mk p.1 s.stdout s.globals, p.2)

/-- Auxiliary: running a sequence of operations folds `foldOp` over the
starting value. -/
theorem runOps_value (ops : List Op) :
    ∀ c : Calculator, (runOps c ops).value = ops.foldl foldOp c.value := by
  induction ops with
  | nil => intro c; rfl
  | cons o t ih =>
    intro c
    cases o with
    | add n =>
      simpa [runOps, applyOp, Calculator.add, foldOp] using ih ((Calculator.add c n).1)
    | mul n =>
      simpa [runOps, applyOp, Calculator.multiply, foldOp] using ih ((Calculator.multiply c n).1)

/-- Claim C1: for every finite sequence of add/multiply operations applied
to a freshly constructed `Calculator`, the `value` attribute equals the
left-to-right fold of the corresponding `+`/`*` applications starting
from 0; with no operations invoked, `value` equals 0. -/
theorem C1_value_is_fold (ops : List Op) :
    (runOps Calculator.init ops).value = specFold ops ∧
    (runOps Calculator.init []).value = 0 := by
  refine ⟨?_, rfl⟩
  simpa [specFold, Calculator.init] using runOps_value ops Calculator.init

/-- Claim C2: for every calculator state and every `n`, `add n` updates
the stored value to `value + n` and returns that new value. -/
theorem C2_add_updates_and_returns (c : Calculator) (n : Int) :
    c.add n = (⟨c.value + n⟩, c.value + n) := rfl

/-- Claim C3: for every calculator state and every `n`, `multiply n`
updates the stored value to `value * n` and returns that new value. -/
theorem C3_multiply_updates_and_returns (c : Calculator) (n : Int) :
    c.multiply n = (⟨c.value * n⟩, c.value * n) := rfl

/-- Claim C4 (counterexample): `multiply` on a fresh calculator with the
non-numeric argument `"abc"` does not fail: Python sequence repetition
evaluates `0 * "abc"` to the empty string, which is stored and returned.
This refutes the claim that every non-numeric input makes `add`/`multiply`
fail with a TypeMismatch condition. -/
theorem C4_counterexample :
    DynCalculator.init.multiply (PyVal.strV ("abc"))
      = Except.ok (⟨PyVal.strV ("")⟩, PyVal.strV ("")) := rfl

/-- Claim C4 (amended): on an integer-valued calculator state, `add` and
`multiply` with an integer argument always succeed with the exact
arithmetic result; `add` with a string argument fails with an uncaught
`TypeError`; but `multiply` with a string argument succeeds, storing the
string repeated `value` times. -/
theorem C4_amended_dynamic_typing (v m : Int) (s : String) :
    DynCalculator.add ⟨PyVal.intV v⟩ (PyVal.intV m)
      = Except.ok (⟨PyVal.intV (v + m)⟩, PyVal.intV (v + m)) ∧
    DynCalculator.multiply ⟨PyVal.intV v⟩ (PyVal.intV m)
      = Except.ok (⟨PyVal.intV (v * m)⟩, PyVal.intV (v * m)) ∧
    DynCalculator.add ⟨PyVal.intV v⟩ (PyVal.strV s)
      = Except.error typeErrorMsg ∧
    DynCalculator.multiply ⟨PyVal.intV v⟩ (PyVal.strV s)
      = Except.ok (⟨PyVal.strV (strRepeat v s)⟩, PyVal.strV (strRepeat v s)) :=
  ⟨rfl, rfl, rfl, rfl⟩

/-- Claim C5: in the reference main flow a fresh calculator is built,
`add(5)` returns 5, `multiply(2)` returns 10, the line printed is
`Result: 10`, and the process exits with status 0. -/
theorem C5_main_flow :
    main_trace = (⟨10⟩, 5, 10, [("Result: 10" : String)], 0) := by
  decide

/-- Claim C6 (counterexample): the reference run writes exactly one line
to standard output, not two, and the line `Hello World!` is not among
them: the main block never calls `hello_world`. -/
theorem C6_counterexample :
    main_trace.2.2.2.1.length = 1 ∧ helloLine ∉ main_trace.2.2.2.1 := by
  decide

/-- Claim C6 (amended): in the reference run exactly one line is written
to standard output, namely `Result: ` followed by the decimal textual
representation of the calculator's final value. -/
theorem C6_amended_one_line :
    main_trace.2.2.2.1 = [resultPrefix ++ toString main_trace.1.value] ∧
    main_trace.2.2.2.1.length = 1 := by
  decide

/-- Claim C7: for every calculator state and all `a`, `b`, running
`add a` then `add b` yields the same final stored state as running
`add b` then `add a`. -/
theorem C7_add_add_comm (c : Calculator) (a b : Int) :
    ((c.add a).1.add b).1 = ((c.add b).1.add a).1 := by
  simp only [Calculator.add, Calculator.mk.injEq]
  omega

/-- Claim C8: for every calculator state, `multiply 0` sets the stored
value to 0 and returns 0, regardless of the prior state. -/
theorem C8_multiply_zero (c : Calculator) :
    c.multiply 0 = (⟨0⟩, 0) := by
  simp [Calculator.multiply]

/-- Claim C9: every invocation of `hello_world` appends exactly the one
line `Hello World!` to standard output and returns the literal string
`success`. -/
theorem C9_greet (out : List String) :
    hello_world out = (out ++ [helloLine], successMsg) := rfl

/-- Claim C10: `add` and `multiply` modify only the calculator's `value`
attribute: the standard output and all other global/external state are
unchanged, the new calculator state is determined by `value` alone, and a
`Calculator` holds no attribute besides `value`. -/
theorem C10_frame (G : Type) (s : ProgState G) (n : Int) :
    (s.runAdd n).1.stdout = s.stdout ∧
    (s.runAdd n).1.globals = s.globals ∧
    (s.runMultiply n).1.stdout = s.stdout ∧
    (s.runMultiply n).1.globals = s.globals ∧
    (s.runAdd n).1.acc = Calculator.mk (s.acc.value + n) ∧
    (s.runMultiply n).1.acc = Calculator.mk (s.acc.value * n) ∧
    s.acc = Calculator.mk s.acc.value :=
  ⟨rfl, rfl, rfl, rfl, rfl, rfl, rfl⟩
